import Mathlib

/-!
Verification of the pwn3 intercepting game proxy.

The development shallowly embeds the two core modules of the repository:

* `tools/proxy/parser.py` — the dispatch-table packet decoder.  Byte buffers
  are modelled as `List Nat` (each element one byte value), each
  `struct.unpack` as a partial reader returning `Option`, a raised exception
  as `none`, and the two `helpers.PACKET_QUEUE.put` side effects as an
  explicit list of injected packets returned by each handler.  The f-string a
  handler prints is modelled by the structured type `Msg` carrying the parsed
  fields.  Each handler in the source ends with `return data[k:], message`;
  its embedding returns the consumed count `k` (the caller takes `data.drop
  k`, the same slice).
* `tools/proxy/proxy.py` — the relay engine.  The run-loop iteration, the
  stop cascade and the listener/dialer handshake are modelled as explicit
  traces and state machines, and the retry backoff as a real-valued function.
-/

namespace Pwn3

/-- Constant helpers.MASTER_PORT. -/
def MASTER_PORT : Nat := 3333

/-- Enumeration helpers.ConnectionType. -/
inductive ConnectionType where
  | CLIENT
  | SERVER
deriving DecidableEq, Repr

/-- Reader for struct.unpack('H', data[:2]): a native (little-endian) u16
from the first two bytes; `none` models the struct.error raised when fewer
than two bytes are available. -/
def u16le : List Nat → Option Nat
  | b0 :: b1 :: _ => some (b0 + 256 * b1)
  | _ => none

/-- Reader for struct.unpack('I', data[:4]): a little-endian u32. -/
def u32le : List Nat → Option Nat
  | b0 :: b1 :: b2 :: b3 :: _ =>
      some (b0 + 256 * b1 + 65536 * b2 + 16777216 * b3)
  | _ => none

/-- Reader for struct.unpack('fff', slice): requires exactly 12 bytes in the
given slice and keeps them uninterpreted as raw bytes (no claim concerns the
numeric value of a float, only the bytes consumed). -/
def unpackF3 (s : List Nat) : Option (List Nat) :=
  if s.length = 12 then some s else none

/-- Reader for a single leading byte (struct.unpack('B') or ('?')). -/
def byte1 : List Nat → Option Nat
  | b :: _ => some b
  | _ => none

/-- Python indexing data[i]; `none` models IndexError. -/
def byteAt (d : List Nat) (i : Nat) : Option Nat := d.get? i

/-- Signed reinterpretation of a u16 (struct code 'h'). -/
def i16ofU (v : Nat) : Int :=
  if v < 32768 then (v : Int) else (v : Int) - 65536

/-- Encoder for struct.pack of a 4-byte little-endian unsigned int. -/
def le32enc (n : Nat) : List Nat :=
  [n % 256, n / 256 % 256, n / 65536 % 256, n / 16777216 % 256]

/-- Strict UTF-8 decoding of a byte list into its code points, mirroring
Python bytes.decode('utf-8') (helpers.ENCODING): continuation-byte ranges
checked, overlong forms and surrogates rejected; `none` models
UnicodeDecodeError. -/
def utf8Decode : List Nat → Option (List Nat)
  | [] => some []
  | b :: rest =>
    if b < 128 then
      match utf8Decode rest with
      | some cps => some (b :: cps)
      | none => none
    else if 194 ≤ b ∧ b ≤ 223 then
      match rest with
      | b1 :: rest2 =>
        if 128 ≤ b1 ∧ b1 ≤ 191 then
          match utf8Decode rest2 with
          | some cps => some (((b - 192) * 64 + (b1 - 128)) :: cps)
          | none => none
        else none
      | _ => none
    else if 224 ≤ b ∧ b ≤ 239 then
      match rest with
      | b1 :: b2 :: rest2 =>
        if (if b = 224 then 160 else 128) ≤ b1 ∧
            b1 ≤ (if b = 237 then 159 else 191) ∧
            128 ≤ b2 ∧ b2 ≤ 191 then
          match utf8Decode rest2 with
          | some cps =>
              some (((b - 224) * 4096 + (b1 - 128) * 64 + (b2 - 128)) :: cps)
          | none => none
        else none
      | _ => none
    else if 240 ≤ b ∧ b ≤ 244 then
      match rest with
      | b1 :: b2 :: b3 :: rest2 =>
        if (if b = 240 then 144 else 128) ≤ b1 ∧
            b1 ≤ (if b = 244 then 143 else 191) ∧
            128 ≤ b2 ∧ b2 ≤ 191 ∧ 128 ≤ b3 ∧ b3 ≤ 191 then
          match utf8Decode rest2 with
          | some cps =>
              some (((b - 240) * 262144 + (b1 - 128) * 4096 +
                     (b2 - 128) * 64 + (b3 - 128)) :: cps)
          | none => none
        else none
      | _ => none
    else none

/-- Test whether the first list is an initial segment of the second. -/
def leadsWith : List Nat → List Nat → Bool
  | [], _ => true
  | _ :: _, [] => false
  | a :: as, b :: bs => a == b && leadsWith as bs

/-- Python substring test (needle in haystack) over code-point lists. -/
def hasSub (needle : List Nat) : List Nat → Bool
  | [] => needle.isEmpty
  | b :: bs => leadsWith needle (b :: bs) || hasSub needle bs

/-- Code points of the ASCII string Drop, the needle of handle_actor_drop. -/
def dropNeedle : List Nat := [68, 114, 111, 112]

/-- Structured stand-in for the f-string message each handler returns for
printing: one constructor per handler, carrying the fields the source
interpolates (decoded names are carried as code-point lists, float fields as
their raw bytes). -/
inductive Msg where
  | ack
  | position (raw : List Nat)
  | jump (b : Nat)
  | sneak (b : Nat)
  | slotSelect (slot : Nat)
  | shoot (name : List Nat) (dir : List Nat)
  | chat (text : List Nat)
  | actorDrop (item_id : Nat) (name : List Nat) (pos : List Nat) (looted : Bool)
  | regionChange (name : List Nat)
  | itemAcquire (amount : Nat) (name : List Nat)
  | itemPickup (item_id : Nat)
  | reloaded (weapon : List Nat) (count : Nat) (ammo : List Nat)
  | needReload
  | health (actor_id : Nat) (hp : Int)
  | mana (n : Nat)
  | ps
  | state (actor_id : Nat) (st : List Nat)
  | attack (attacker : Nat) (atk : List Nat) (victim : Nat)
  | loadedAmmo (weapon : List Nat) (count : Nat)
deriving DecidableEq, Repr

/-- Result of one handler on the tag-stripped buffer: the number of bytes
consumed (the source returns data[k:]), the message, and the packets pushed
onto helpers.PACKET_QUEUE; `none` models an exception escaping the handler. -/
abbrev HandlerOut := Nat × Msg × List (List Nat)

/-- Handler handle_ack: no-op. -/
def handle_ack (_data : List Nat) : Option HandlerOut :=
  some (0, Msg.ack, [])

/-- Handler handle_position: three floats from data[0:12], returns data[20:]. -/
def handle_position (data : List Nat) : Option HandlerOut := do
  let raw ← unpackF3 (data.take 12)
  some (20, Msg.position raw, [])

/-- Handler handle_jump: one boolean byte. -/
def handle_jump (data : List Nat) : Option HandlerOut := do
  let b ← byte1 data
  some (1, Msg.jump b, [])

/-- Handler handle_sneak: one boolean byte (inverted in the message text). -/
def handle_sneak (data : List Nat) : Option HandlerOut := do
  let b ← byte1 data
  some (1, Msg.sneak b, [])

/-- Handler handle_slot_select: one byte slot index. -/
def handle_slot_select (data : List Nat) : Option HandlerOut := do
  let b ← byte1 data
  some (1, Msg.slotSelect b, [])

/-- Handler handle_shoot: u16 length, name, three direction floats from
data[length+2 : length+2+12]; the source then returns data[2+length:], so the
direction bytes are read but not consumed. -/
def handle_shoot (data : List Nat) : Option HandlerOut := do
  let length ← u16le data
  let name := (data.drop 2).take length
  let dir ← unpackF3 ((data.drop (2 + length)).take 12)
  let cps ← utf8Decode name
  some (2 + length, Msg.shoot cps dir, [])

/-- Handler handle_chat: u16 length-prefixed utf-8 message. -/
def handle_chat (data : List Nat) : Option HandlerOut := do
  let length ← u16le data
  let cps ← utf8Decode ((data.drop 2).take length)
  some (2 + length, Msg.chat cps, [])

/-- Handler handle_actor_drop: u32 item id, u32 unknown, byte data[9],
u16 name length at data[9:11], utf-8 name, three position floats; pushes a
pickup packet (struct.pack('=HI', 0x6565, item_id)) when the decoded name
contains Drop; returns data[11+L+12:]. -/
def handle_actor_drop (data : List Nat) : Option HandlerOut := do
  let item_id ← u32le data
  let _unknown ← u32le (data.drop 4)
  let _unknown2 ← byteAt data 9
  let item_name_length ← u16le (data.drop 9)
  let cps ← utf8Decode ((data.drop 11).take item_name_length)
  let pos ← unpackF3 ((data.drop (11 + item_name_length)).take 12)
  let looted := hasSub dropNeedle cps
  some (11 + item_name_length + 12, Msg.actorDrop item_id cps pos looted,
        if looted then [[101, 101] ++ le32enc item_id] else [])

/-- Handler handle_region_change: u16 length-prefixed utf-8 region name. -/
def handle_region_change (data : List Nat) : Option HandlerOut := do
  let length ← u16le data
  let cps ← utf8Decode ((data.drop 2).take length)
  some (2 + length, Msg.regionChange cps, [])

/-- Handler handle_item_acquire: u16 length-prefixed name plus u32 amount. -/
def handle_item_acquire (data : List Nat) : Option HandlerOut := do
  let length ← u16le data
  let cps ← utf8Decode ((data.drop 2).take length)
  let amount ← u32le (data.drop (2 + length))
  some (2 + length + 4, Msg.itemAcquire amount cps, [])

/-- Handler handle_item_pickup: u32 item id. -/
def handle_item_pickup (data : List Nat) : Option HandlerOut := do
  let item_id ← u32le data
  some (4, Msg.itemPickup item_id, [])

/-- Handler handle_reload: u16 weapon name, u16 ammo name, u32 count; a
UnicodeDecodeError on either name is caught and turned into the empty
need-to-reload message with the buffer returned unchanged (k = 0); a
struct.error is not caught. -/
def handle_reload (data : List Nat) : Option HandlerOut := do
  let wl ← u16le data
  match utf8Decode ((data.drop 2).take wl) with
  | none => some (0, Msg.needReload, [])
  | some wcps =>
    match u16le (data.drop (2 + wl)) with
    | none => none
    | some al =>
      match utf8Decode ((data.drop (2 + wl + 2)).take al) with
      | none => some (0, Msg.needReload, [])
      | some acps =>
        match u32le (data.drop (2 + wl + 2 + al)) with
        | none => none
        | some count =>
          some (2 + wl + 2 + al + 4, Msg.reloaded wcps count acps, [])

/-- Handler handle_health: struct.unpack('Ih', data[:6]). -/
def handle_health (data : List Nat) : Option HandlerOut := do
  let actor_id ← u32le data
  let hp ← u16le (data.drop 4)
  some (6, Msg.health actor_id (i16ofU hp), [])

/-- Handler handle_mana: one u16. -/
def handle_mana (data : List Nat) : Option HandlerOut := do
  let n ← u16le data
  some (2, Msg.mana n, [])

/-- Handler handle_ps: fixed 28-byte skip, no parsing. -/
def handle_ps (_data : List Nat) : Option HandlerOut :=
  some (28, Msg.ps, [])

/-- Handler handle_state: struct.unpack('IH', data[:6]) then the state text. -/
def handle_state (data : List Nat) : Option HandlerOut := do
  let actor_id ← u32le data
  let sl ← u16le (data.drop 4)
  let cps ← utf8Decode ((data.drop 6).take sl)
  some (6 + sl, Msg.state actor_id cps, [])

/-- Handler handle_attack: attacker id, attack text, victim id. -/
def handle_attack (data : List Nat) : Option HandlerOut := do
  let attacker_id ← u32le data
  let al ← u16le (data.drop 4)
  let cps ← utf8Decode ((data.drop 6).take al)
  let victim_id ← u32le (data.drop (6 + al))
  some (6 + al + 4, Msg.attack attacker_id cps victim_id, [])

/-- Handler handle_loaded_ammo: u16 weapon name plus u32 loaded count; pushes
the reload request struct.pack('>H', 0x726c) when the count is zero. -/
def handle_loaded_ammo (data : List Nat) : Option HandlerOut := do
  let wl ← u16le data
  let wcps ← utf8Decode ((data.drop 2).take wl)
  let count ← u32le (data.drop (2 + wl))
  some (2 + wl + 4, Msg.loadedAmmo wcps count,
        if count = 0 then [[114, 108]] else [])

/-- One entry of the dispatch table together with whether the @format wrapper
suppresses its message (the source checks the handler's name against
NO_PRINT). -/
structure HandlerEntry where
  fn : List Nat → Option HandlerOut
  noPrint : Bool

/-- The PACKET_HANDLERS dict keyed by the two tag bytes, combined with the
NO_PRINT name set (handle_ack, handle_position, handle_ps, handle_mana). -/
def PACKET_HANDLERS : Nat → Nat → Option HandlerEntry
  | 0, 0 => some ⟨handle_ack, true⟩
  | 109, 118 => some ⟨handle_position, true⟩
  | 106, 112 => some ⟨handle_jump, false⟩
  | 114, 110 => some ⟨handle_sneak, false⟩
  | 115, 61 => some ⟨handle_slot_select, false⟩
  | 42, 105 => some ⟨handle_shoot, false⟩
  | 35, 42 => some ⟨handle_chat, false⟩
  | 109, 107 => some ⟨handle_actor_drop, false⟩
  | 99, 104 => some ⟨handle_region_change, false⟩
  | 99, 112 => some ⟨handle_item_acquire, false⟩
  | 101, 101 => some ⟨handle_item_pickup, false⟩
  | 114, 108 => some ⟨handle_reload, false⟩
  | 43, 43 => some ⟨handle_health, false⟩
  | 109, 97 => some ⟨handle_mana, true⟩
  | 112, 115 => some ⟨handle_ps, true⟩
  | 115, 116 => some ⟨handle_state, false⟩
  | 116, 114 => some ⟨handle_attack, false⟩
  | 108, 97 => some ⟨handle_loaded_ammo, false⟩
  | _, _ => none

/-- One console line produced by parse: either the unknown-tag inspection
print (showing the 2-byte tag and the whole remaining buffer) or a handler
message prefixed by a direction marker derived from the origin. -/
inductive LogEvent where
  | unknown (pid : Nat × Nat) (data : List Nat)
  | msg (origin : ConnectionType) (m : Msg)
deriving DecidableEq, Repr

/-- The observable effects of one parse call: the console lines printed, the
packets pushed onto helpers.PACKET_QUEUE in order, and whether an exception
escaped the call (ending the loop early). -/
structure PResult where
  logs : List LogEvent
  inj : List (List Nat)
  error : Bool
deriving DecidableEq, Repr

/-- The while-loop of parse.  The source loops while at least 2 bytes remain:
it reads the 2-byte tag, dispatches through PACKET_HANDLERS on the
tag-stripped buffer and continues on the handler's returned remainder
(data.drop 2 |>.drop k); with no handler it prints the buffer once (only when
the incremented read counter is still ≤ 1) and retries one byte further.
The loop consumes at least one byte per iteration, so a fuel of data.length
is always sufficient (theorem parseLoop_fuel); the fuel-zero fallback equals
the loop-exit result. -/
def parseLoop (origin : ConnectionType) : Nat → List Nat → Nat → PResult
  | 0, _, _ => ⟨[], [], false⟩
  | fuel + 1, data, reads =>
    match data with
    | b0 :: b1 :: _ =>
      match PACKET_HANDLERS b0 b1 with
      | some e =>
        match e.fn (data.drop 2) with
        | none => ⟨[], [], true⟩
        | some (k, m, pks) =>
          let r := parseLoop origin fuel ((data.drop 2).drop k) (reads + 1)
          ⟨(if e.noPrint then [] else [LogEvent.msg origin m]) ++ r.logs,
            pks ++ r.inj, r.error⟩
      | none =>
        let l := if reads + 1 ≤ 1 then [LogEvent.unknown (b0, b1) data] else []
        let r := parseLoop origin fuel (data.drop 1) (reads + 1)
        ⟨l ++ r.logs, r.inj, r.error⟩
    | _ => ⟨[], [], false⟩

/-- Top level parse(data, port, origin): packets from the master server are
skipped entirely, everything else runs the decode loop with the read counter
starting at zero. -/
def parse (data : List Nat) (port : Nat) (origin : ConnectionType) : PResult :=
  if port = MASTER_PORT then ⟨[], [], false⟩
  else parseLoop origin data.length data 0

/-- Number of unknown-tag console lines in a list of log events. -/
def countUnknown : List LogEvent → Nat
  | [] => 0
  | LogEvent.unknown _ _ :: rest => countUnknown rest + 1
  | LogEvent.msg _ _ :: rest => countUnknown rest

/-- Number of unknown-tag console lines in a parse result. -/
def unknownCount (r : PResult) : Nat := countUnknown r.logs

/-- Computation ProxyConnection.retry_interval modelled over the reals:
20 * (1 / (1 + e ^ (-retries / 10)) - 0.4). -/
noncomputable def retry_interval (retries : Nat) : ℝ :=
  20 * (1 / (1 + Real.exp (-(retries : ℝ) / 10)) - 0.4)

/-- Identity of one of the two linked connections of a proxy generation. -/
inductive ConnId where
  | a
  | b
deriving DecidableEq, Repr

/-- The dest_conn back-reference: each connection of a linked pair holds the
other as its destination. -/
def dest_conn : ConnId → ConnId
  | ConnId.a => ConnId.b
  | ConnId.b => ConnId.a

/-- One observable action of the run loop of ProxyConnection: a sendall on
the socket owned by the named connection, the decode attempt handed a copy of
the received bytes (carrying the parse effects, whose error flag the
surrounding try/except of run turns into a console line), or stop(). -/
inductive RunAct where
  | sendTo (target : ConnId) (data : List Nat)
  | decoded (data : List Nat) (r : PResult)
  | stopped
deriving DecidableEq, Repr

/-- One iteration of ProxyConnection.run by the connection self, after
receive() returned data: send(data) writes the bytes through
self.dest_conn._sock; an empty read triggers stop(), otherwise the bytes are
handed to parser.parse inside try/except; finally a CLIENT connection drains
at most one pending packet from helpers.PACKET_QUEUE and sends it the same
way. -/
def runIteration (self : ConnId) (role : ConnectionType) (port : Nat)
    (data : List Nat) (pending : Option (List Nat)) : List RunAct :=
  RunAct.sendTo (dest_conn self) data ::
    ((if data = [] then [RunAct.stopped]
      else [RunAct.decoded data (parse data port role)]) ++
     (if role = ConnectionType.CLIENT then
        match pending with
        | some p => [RunAct.sendTo (dest_conn self) p]
        | none => []
      else []))

/-- Whether a connection of the stop model is the first or second of its
pair. -/
inductive Who where
  | wa
  | wb
deriving DecidableEq, Repr

/-- The partner of a connection in the stop model. -/
def otherW : Who → Who
  | Who.wa => Who.wb
  | Who.wb => Who.wa

/-- Lifecycle state of one ProxyConnection relevant to stop(): whether its
_stop_event is set and whether its socket has been shut down and closed. -/
structure ConnSt where
  stopSet : Bool
  sockClosed : Bool
deriving DecidableEq, Repr

/-- The joint state of a linked pair. -/
structure PairSt where
  ca : ConnSt
  cb : ConnSt
deriving DecidableEq, Repr

/-- Projection of one connection's state. -/
def getConn (p : PairSt) : Who → ConnSt
  | Who.wa => p.ca
  | Who.wb => p.cb

/-- Replacement of one connection's state. -/
def setConn (p : PairSt) : Who → ConnSt → PairSt
  | Who.wa, c => ⟨c, p.cb⟩
  | Who.wb, c => ⟨p.ca, c⟩

/-- Method is_running: true while the connection's _stop_event is unset. -/
def is_running (p : PairSt) (w : Who) : Bool :=
  !(getConn p w).stopSet

/-- The body of stop() before the cascade: shut down and close the owned
socket (an OSError from an already-closed socket is caught and only logged)
and set the connection's _stop_event. -/
def stopOne (p : PairSt) (w : Who) : PairSt :=
  setConn p w ⟨true, true⟩

/-- Method stop() with explicit recursion depth: close and mark this
connection, then, if the destination connection is still running, stop it
too.  The cascade stops after the partner because this connection's stop
event is already set; depth 2 therefore never reaches the fuel-zero
fallback (theorem stop_cascade_depth). -/
def stopAux : Nat → PairSt → Who → PairSt
  | 0, p, _ => p
  | n + 1, p, w =>
    let p1 := stopOne p w
    if is_running p1 (otherW w) then stopAux n p1 (otherW w) else p1

/-- Method stop() on one connection of a linked pair. -/
def stop (p : PairSt) (w : Who) : PairSt := stopAux 2 p w

/-- Progress of the Listener (CLIENT role) connection through open():
_listen's blocking accept, then setting _conn_event. -/
inductive LState where
  | start
  | accepted
  | relaying
deriving DecidableEq, Repr

/-- Progress of the Dialer (SERVER role) connection through open() and
_connect: it first blocks in dest_conn.await_conn(), may then attempt
socket.connect, and finally succeeds. -/
inductive DState where
  | start
  | connecting
  | connected
deriving DecidableEq, Repr

/-- Joint progress of a linked pair during connection establishment. -/
structure HSt where
  l : LState
  d : DState
deriving DecidableEq, Repr

/-- Interleaved small-step semantics of the two open() calls.  The listener
accepts and then signals its _conn_event (entering its relaying loop); the
dialer's await transition is enabled only once the listener's event is set,
exactly the dest_conn.await_conn() wait at the top of _connect; only then can
it attempt an outbound connect. -/
inductive HStep : HSt → HSt → Prop
  | accept (d : DState) : HStep ⟨LState.start, d⟩ ⟨LState.accepted, d⟩
  | signal (d : DState) : HStep ⟨LState.accepted, d⟩ ⟨LState.relaying, d⟩
  | awaitPair : HStep ⟨LState.relaying, DState.start⟩
      ⟨LState.relaying, DState.connecting⟩
  | connect (l : LState) : HStep ⟨l, DState.connecting⟩ ⟨l, DState.connected⟩

/-- States reachable from both connections freshly constructed. -/
inductive HReach : HSt → Prop
  | init : HReach ⟨LState.start, DState.start⟩
  | step {s s' : HSt} : HReach s → HStep s s' → HReach s'

/-- Claim C1: for every actor-drop packet whose decoded item name contains
the substring Drop, decoding pushes exactly one injected pickup packet, whose
payload is the two opcode bytes 0x65 0x65 followed by the 4-byte
little-endian item id; for a name not containing Drop, nothing is pushed. -/
theorem actor_drop_injects_exactly_one (d : List Nat) (k item_id : Nat)
    (cps pos : List Nat) (looted : Bool) (inj : List (List Nat))
    (h : handle_actor_drop d =
      some (k, Msg.actorDrop item_id cps pos looted, inj)) :
    (hasSub dropNeedle cps = true → inj = [[101, 101] ++ le32enc item_id]) ∧
    (hasSub dropNeedle cps = false → inj = []) := by
  unfold handle_actor_drop at h
  simp only [bind, Option.bind_eq_some] at h
  obtain ⟨iid, hiid, u1, hu1, u2, hu2, L, hL, c, hc, p, hp, h⟩ := h
  simp only [Option.some.injEq, Prod.mk.injEq, Msg.actorDrop.injEq] at h
  obtain ⟨hk, ⟨hid, hcps, hpos, hlooted⟩, hinj⟩ := h
  subst hid hcps
  constructor
  · intro hs
    rw [hs] at hinj
    simpa using hinj.symm
  · intro hs
    rw [hs] at hinj
    simpa using hinj.symm

/-- Witness for C1: a concrete actor-drop payload with item id 5 and name
Drop produces exactly the pickup packet 0x65 0x65 followed by the id in
little-endian order. -/
theorem actor_drop_injects_exactly_one_witness :
    ([[101, 101, 5, 0, 0, 0]] : List (List Nat)) = [[101, 101] ++ le32enc 5] :=
  (actor_drop_injects_exactly_one
    ([5, 0, 0, 0] ++ [1, 2, 3, 4] ++ [9] ++ [4, 0] ++
      [68, 114, 111, 112] ++ List.replicate 12 0)
    27 5 [68, 114, 111, 112] (List.replicate 12 0) true
    [[101, 101, 5, 0, 0, 0]] (by decide)).1 (by decide)

/-- Claim C2: for every loaded-ammo packet, a decoded loaded count of zero
pushes exactly one injected reload packet, the 2-byte big-endian opcode
0x72 0x6c with no payload; a nonzero count pushes nothing. -/
theorem loaded_ammo_injects_reload (d : List Nat) (k : Nat) (w : List Nat)
    (count : Nat) (inj : List (List Nat))
    (h : handle_loaded_ammo d = some (k, Msg.loadedAmmo w count, inj)) :
    (count = 0 → inj = [[114, 108]]) ∧ (count ≠ 0 → inj = []) := by
  unfold handle_loaded_ammo at h
  simp only [bind, Option.bind_eq_some] at h
  obtain ⟨wl, hwl, wcps, hwcps, cnt, hcnt, h⟩ := h
  simp only [Option.some.injEq, Prod.mk.injEq, Msg.loadedAmmo.injEq] at h
  obtain ⟨hk, ⟨hw, hc⟩, hinj⟩ := h
  subst hc
  constructor
  · intro hz
    rw [if_pos hz] at hinj
    exact hinj.symm
  · intro hz
    rw [if_neg hz] at hinj
    exact hinj.symm

/-- Witness for C2: a concrete loaded-ammo payload with count zero produces
exactly the reload request packet 0x72 0x6c. -/
theorem loaded_ammo_injects_reload_witness :
    ([[114, 108]] : List (List Nat)) = [[114, 108]] :=
  (loaded_ammo_injects_reload [1, 0, 97, 0, 0, 0, 0] 7 [97] 0 [[114, 108]]
    (by decide)).1 rfl

/-- Claim C3 (divergence witness): on a correctly framed shoot packet whose
payload after the tag is the u16 length 2, the name ab and twelve direction
bytes, handle_shoot consumes only 2 + length = 4 bytes, so the remainder it
hands back to the decode loop still begins with the twelve direction-float
bytes instead of following them. -/
theorem shoot_leaves_direction_unconsumed :
    handle_shoot ([2, 0, 97, 98] ++ List.replicate 12 7) =
      some (4, Msg.shoot [97, 98] (List.replicate 12 7), []) ∧
    ([2, 0, 97, 98] ++ List.replicate 12 7).drop 4 = List.replicate 12 7 := by
  decide

/-- Claim C6: a reload packet whose weapon or ammo text fails strict UTF-8
decoding consumes nothing (the handler reports consumption 0, returning the
tag-stripped buffer unchanged) and yields the need-to-reload message with no
injection; a well-formed reload packet consumes the u16-prefixed weapon name,
the u16-prefixed ammo name and the u32 ammo count. -/
theorem reload_decode_fallback :
    (∀ d k inj, handle_reload d = some (k, Msg.needReload, inj) →
      k = 0 ∧ inj = []) ∧
    (∀ d wl, u16le d = some wl →
      utf8Decode ((d.drop 2).take wl) = none →
      handle_reload d = some (0, Msg.needReload, [])) ∧
    (∀ d wl wcps al, u16le d = some wl →
      utf8Decode ((d.drop 2).take wl) = some wcps →
      u16le (d.drop (2 + wl)) = some al →
      utf8Decode ((d.drop (2 + wl + 2)).take al) = none →
      handle_reload d = some (0, Msg.needReload, [])) ∧
    (∀ d wl wcps al acps count, u16le d = some wl →
      utf8Decode ((d.drop 2).take wl) = some wcps →
      u16le (d.drop (2 + wl)) = some al →
      utf8Decode ((d.drop (2 + wl + 2)).take al) = some acps →
      u32le (d.drop (2 + wl + 2 + al)) = some count →
      handle_reload d =
        some (2 + wl + 2 + al + 4, Msg.reloaded wcps count acps, [])) := by
  refine ⟨?_, ?_, ?_, ?_⟩
  · intro d k inj h
    unfold handle_reload at h
    simp only [bind, Option.bind_eq_some] at h
    obtain ⟨wl, hwl, h⟩ := h
    split at h
    · simp only [Option.some.injEq, Prod.mk.injEq] at h
      exact ⟨h.1.symm, h.2.2.symm⟩
    · split at h
      · exact absurd h (by simp)
      · split at h
        · simp only [Option.some.injEq, Prod.mk.injEq] at h
          exact ⟨h.1.symm, h.2.2.symm⟩
        · split at h
          · exact absurd h (by simp)
          · simp only [Option.some.injEq, Prod.mk.injEq] at h
            exact absurd h.2.1 (by simp)
  · intro d wl hwl hdec
    unfold handle_reload
    simp [hwl, hdec]
  · intro d wl wcps al hwl hw hal hdec
    unfold handle_reload
    simp [hwl, hw, hal, hdec]
  · intro d wl wcps al acps count hwl hw hal ha hcount
    unfold handle_reload
    simp [hwl, hw, hal, ha, hcount]

/-- Witness for C6: a concrete reload payload whose weapon name is the
invalid UTF-8 byte 0xff consumes nothing and reports need-to-reload. -/
theorem reload_decode_fallback_witness :
    handle_reload [1, 0, 255] = some (0, Msg.needReload, []) :=
  reload_decode_fallback.2.1 [1, 0, 255] 1 (by decide) (by decide)

/-- Helper: the fuel-zero fallback of parseLoop is never reached when the
fuel is at least the buffer length, because every iteration consumes at least
one byte; any two sufficient fuels give the same result. -/
theorem parseLoop_fuel (origin : ConnectionType) :
    ∀ fuel fuel' data reads, data.length ≤ fuel → data.length ≤ fuel' →
      parseLoop origin fuel data reads = parseLoop origin fuel' data reads := by
  intro fuel
  induction fuel with
  | zero =>
    intro fuel' data reads h _
    have hd : data = [] := List.length_eq_zero.mp (Nat.le_zero.mp h)
    subst hd
    cases fuel' <;> simp [parseLoop]
  | succ f ih =>
    intro fuel' data reads h h'
    match fuel', data with
    | 0, data =>
      have hd : data = [] := List.length_eq_zero.mp (Nat.le_zero.mp h')
      subst hd
      simp [parseLoop]
    | f' + 1, [] => simp [parseLoop]
    | f' + 1, [b] => simp [parseLoop]
    | f' + 1, b0 :: b1 :: t =>
      simp only [List.length_cons] at h h'
      simp only [parseLoop]
      cases hH : PACKET_HANDLERS b0 b1 with
      | none =>
        have hr := ih f' (b1 :: t) (reads + 1)
          (by simp only [List.length_cons]; omega)
          (by simp only [List.length_cons]; omega)
        simp [hr]
      | some e =>
        cases hf : e.fn t with
        | none => simp [hf]
        | some out =>
          obtain ⟨k, m, pks⟩ := out
          have hr := ih f' ((t : List Nat).drop k) (reads + 1)
            (by simp only [List.length_drop]; omega)
            (by simp only [List.length_drop]; omega)
          simp [hf, hr]

/-- Helper: countUnknown distributes over list concatenation. -/
theorem countUnknown_append (a b : List LogEvent) :
    countUnknown (a ++ b) = countUnknown a + countUnknown b := by
  induction a with
  | nil => simp [countUnknown]
  | cons x rest ih => cases x <;> (simp [countUnknown, ih]; try omega)

/-- Helper: once the read counter has passed the first iteration, the
unknown-tag branch never prints, so the rest of the loop contributes no
unknown-tag line. -/
theorem unknownCount_parseLoop_pos (origin : ConnectionType) :
    ∀ fuel data reads, 1 ≤ reads →
      unknownCount (parseLoop origin fuel data reads) = 0 := by
  intro fuel
  induction fuel with
  | zero => intro data reads _; simp [parseLoop, unknownCount, countUnknown]
  | succ f ih =>
    intro data reads hreads
    match data with
    | [] => simp [parseLoop, unknownCount, countUnknown]
    | [b] => simp [parseLoop, unknownCount, countUnknown]
    | b0 :: b1 :: t =>
      simp only [parseLoop]
      cases hH : PACKET_HANDLERS b0 b1 with
      | none =>
        have hif : ¬ (reads + 1 ≤ 1) := by omega
        have hr := ih (b1 :: t) (reads + 1) (by omega)
        simp [hif, unknownCount, countUnknown] at hr ⊢
        exact hr
      | some e =>
        cases hf : e.fn t with
        | none => simp [hf, unknownCount, countUnknown]
        | some out =>
          obtain ⟨k, m, pks⟩ := out
          have hr := ih ((t : List Nat).drop k) (reads + 1) (by omega)
          cases hnp : e.noPrint <;>
            simp [hf, hnp, unknownCount, countUnknown, countUnknown_append]
              at hr ⊢ <;>
            exact hr

/-- Helper: a parse loop whose read counter starts at zero prints the
unknown-tag line at most once, namely only possibly on its first iteration. -/
theorem unknownCount_parseLoop_start (origin : ConnectionType) :
    ∀ fuel data, unknownCount (parseLoop origin fuel data 0) ≤ 1 := by
  intro fuel
  match fuel with
  | 0 => intro data; simp [parseLoop, unknownCount, countUnknown]
  | f + 1 =>
    intro data
    match data with
    | [] => simp [parseLoop, unknownCount, countUnknown]
    | [b] => simp [parseLoop, unknownCount, countUnknown]
    | b0 :: b1 :: t =>
      simp only [parseLoop]
      cases hH : PACKET_HANDLERS b0 b1 with
      | none =>
        have hr := unknownCount_parseLoop_pos origin f (b1 :: t) 1 (le_refl 1)
        simp [unknownCount, countUnknown, countUnknown_append] at hr ⊢
        omega
      | some e =>
        cases hf : e.fn t with
        | none => simp [hf, unknownCount, countUnknown]
        | some out =>
          obtain ⟨k, m, pks⟩ := out
          have hr := unknownCount_parseLoop_pos origin f
            ((t : List Nat).drop k) 1 (le_refl 1)
          cases hnp : e.noPrint <;>
            simp [hf, hnp, unknownCount, countUnknown, countUnknown_append]
              at hr ⊢ <;>
            omega

/-- Claim C4 (amended): an unrecognized 2-byte tag advances the loop by
exactly one byte before retrying; the unknown-tag line is printed at most
once per top-level parse call, and only when already the first iteration sees
an unrecognized tag — after the first iteration the unknown branch never
prints. -/
theorem unknown_tag_resync :
    (∀ origin fuel b0 b1 t reads, PACKET_HANDLERS b0 b1 = none →
      parseLoop origin (fuel + 1) (b0 :: b1 :: t) reads =
        ⟨(if reads + 1 ≤ 1 then [LogEvent.unknown (b0, b1) (b0 :: b1 :: t)]
            else []) ++
            (parseLoop origin fuel (b1 :: t) (reads + 1)).logs,
          (parseLoop origin fuel (b1 :: t) (reads + 1)).inj,
          (parseLoop origin fuel (b1 :: t) (reads + 1)).error⟩) ∧
    (∀ data port origin, unknownCount (parse data port origin) ≤ 1) ∧
    (∀ origin fuel data reads, 1 ≤ reads →
      unknownCount (parseLoop origin fuel data reads) = 0) := by
  refine ⟨?_, ?_, fun origin fuel data reads h =>
    unknownCount_parseLoop_pos origin fuel data reads h⟩
  · intro origin fuel b0 b1 t reads hH
    simp [parseLoop, hH]
  · intro data port origin
    unfold parse
    split
    · simp [unknownCount, countUnknown]
    · exact unknownCount_parseLoop_start origin data.length data

/-- Witness for C4: instantiating the resync property on a buffer of three
bytes 0xff with the read counter already past the first iteration shows that
no unknown-tag line is printed there. -/
theorem unknown_tag_resync_witness :
    unknownCount (parseLoop ConnectionType.CLIENT 3 [255, 255, 255] 1) = 0 :=
  unknown_tag_resync.2.2 ConnectionType.CLIENT 3 [255, 255, 255] 1 (by decide)

/-- Counterexample for C4 as stated: a buffer whose run of unrecognized tags
begins on the second iteration (a jump packet followed by the bytes 0xff
0xff) is never logged — the parse call prints only the jump message, zero
unknown-tag lines, although the tag 0xff 0xff has no handler. -/
theorem unknown_tag_run_not_logged :
    (PACKET_HANDLERS 255 255).isNone = true ∧
    parse [106, 112, 1, 255, 255] 3000 ConnectionType.CLIENT =
      ⟨[LogEvent.msg ConnectionType.CLIENT (Msg.jump 1)], [], false⟩ := by
  constructor
  · rfl
  · decide

/-- Claim C10: the decode loop terminates on every buffer.  A fuel equal to
the buffer length always suffices because every iteration strictly shrinks
the buffer (the unknown branch drops exactly one byte; a dispatched handler
receives the tag-stripped buffer and its remainder is a suffix of it, so at
least the two tag bytes go away), and the loop exits as soon as fewer than
two bytes remain, silently discarding a dangling one-byte remainder. -/
theorem parse_loop_terminates :
    (∀ origin fuel fuel' data reads,
      data.length ≤ fuel → data.length ≤ fuel' →
      parseLoop origin fuel data reads = parseLoop origin fuel' data reads) ∧
    (∀ origin fuel reads, parseLoop origin fuel [] reads = ⟨[], [], false⟩) ∧
    (∀ origin fuel reads b, parseLoop origin fuel [b] reads = ⟨[], [], false⟩) ∧
    (∀ origin fuel b0 b1 t reads e k m pks,
      PACKET_HANDLERS b0 b1 = some e →
      e.fn t = some (k, m, pks) →
      parseLoop origin (fuel + 1) (b0 :: b1 :: t) reads =
        ⟨(if e.noPrint then [] else [LogEvent.msg origin m]) ++
            (parseLoop origin fuel (t.drop k) (reads + 1)).logs,
          pks ++ (parseLoop origin fuel (t.drop k) (reads + 1)).inj,
          (parseLoop origin fuel (t.drop k) (reads + 1)).error⟩) ∧
    (∀ (b0 b1 : Nat) (t : List Nat) (k : Nat),
      (t.drop k) <:+ t ∧
      (t.drop k).length + 2 ≤ (b0 :: b1 :: t).length) := by
  refine ⟨parseLoop_fuel, ?_, ?_, ?_, ?_⟩
  · intro origin fuel reads
    cases fuel <;> simp [parseLoop]
  · intro origin fuel reads b
    cases fuel <;> simp [parseLoop]
  · intro origin fuel b0 b1 t reads e k m pks hH hf
    simp [parseLoop, hH, hf]
  · intro b0 b1 t k
    exact ⟨List.drop_suffix k t, by simp [List.length_drop]⟩

/-- Witness for C10: on the concrete buffer of a jump packet followed by one
dangling byte, any two sufficient fuels (3 and 7) agree. -/
theorem parse_loop_terminates_witness :
    parseLoop ConnectionType.CLIENT 3 [106, 112, 1] 0 =
      parseLoop ConnectionType.CLIENT 7 [106, 112, 1] 0 :=
  parse_loop_terminates.1 ConnectionType.CLIENT 3 7 [106, 112, 1] 0
    (by decide) (by decide)

/-- Claim C7: in every reachable interleaving of the two open() calls, the
dialer has left its initial await only if the listener has completed its
accept and signalled its connection event (reached the relaying state); in
particular no outbound connect attempt can precede the listener's accept. -/
theorem dialer_connects_after_listener (s : HSt) (h : HReach s) :
    s.d ≠ DState.start → s.l = LState.relaying := by
  induction h with
  | init => intro hd; exact absurd rfl hd
  | step hr hs ih =>
    intro hd
    cases hs with
    | accept d => exact LState.noConfusion (ih hd)
    | signal d => rfl
    | awaitPair => rfl
    | connect l => exact ih (fun hc => DState.noConfusion hc)

/-- Witness for C7: the state in which the dialer is attempting its connect,
reached by accept, signal, await, has the listener relaying. -/
theorem dialer_connects_after_listener_witness :
    (⟨LState.relaying, DState.connecting⟩ : HSt).l = LState.relaying :=
  dialer_connects_after_listener ⟨LState.relaying, DState.connecting⟩
    (HReach.step
      (HReach.step
        (HReach.step HReach.init (HStep.accept DState.start))
        (HStep.signal DState.start))
      HStep.awaitPair)
    (by decide)

/-- Helper: the stop cascade never needs depth beyond 2, because the first
stop sets this connection's stop event before recursing, so the partner's
recursive stop finds it already stopped. -/
theorem stop_cascade_depth (n : Nat) (p : PairSt) (w : Who) :
    stopAux (n + 2) p w = stopAux 2 p w := by
  obtain ⟨⟨a1, a2⟩, ⟨b1, b2⟩⟩ := p
  cases w <;> cases a1 <;> cases b1 <;>
    simp [stopAux, stopOne, setConn, getConn, is_running, otherW]

/-- Claim C9: stopping either connection of a linked pair leaves both
connections closed — both stop events set and both sockets shut down (given
the invariant that a connection whose stop event is already set also has its
socket closed, which every stop preserves) — and a second stop on either
already-closed connection changes no state. -/
theorem stop_closes_both_and_idempotent (p : PairSt) (w : Who)
    (h : (getConn p (otherW w)).stopSet = true →
      (getConn p (otherW w)).sockClosed = true) :
    ((getConn (stop p w) Who.wa).stopSet = true ∧
      (getConn (stop p w) Who.wb).stopSet = true ∧
      (getConn (stop p w) Who.wa).sockClosed = true ∧
      (getConn (stop p w) Who.wb).sockClosed = true) ∧
    stop (stop p w) Who.wa = stop p w ∧
    stop (stop p w) Who.wb = stop p w := by
  obtain ⟨⟨a1, a2⟩, ⟨b1, b2⟩⟩ := p
  revert h
  cases w <;> cases a1 <;> cases a2 <;> cases b1 <;> cases b2 <;> decide

/-- Witness for C9: stopping the first connection of a freshly running pair
closes both and further stops change nothing. -/
theorem stop_closes_both_and_idempotent_witness :
    ((getConn (stop ⟨⟨false, false⟩, ⟨false, false⟩⟩ Who.wa) Who.wa).stopSet =
        true ∧
      (getConn (stop ⟨⟨false, false⟩, ⟨false, false⟩⟩ Who.wa) Who.wb).stopSet =
        true ∧
      (getConn (stop ⟨⟨false, false⟩, ⟨false, false⟩⟩ Who.wa)
          Who.wa).sockClosed = true ∧
      (getConn (stop ⟨⟨false, false⟩, ⟨false, false⟩⟩ Who.wa)
          Who.wb).sockClosed = true) ∧
    stop (stop ⟨⟨false, false⟩, ⟨false, false⟩⟩ Who.wa) Who.wa =
      stop ⟨⟨false, false⟩, ⟨false, false⟩⟩ Who.wa ∧
    stop (stop ⟨⟨false, false⟩, ⟨false, false⟩⟩ Who.wa) Who.wb =
      stop ⟨⟨false, false⟩, ⟨false, false⟩⟩ Who.wa :=
  stop_closes_both_and_idempotent ⟨⟨false, false⟩, ⟨false, false⟩⟩ Who.wa
    (by decide)

/-- Claim C8: in every run-loop iteration the received bytes are first
written, unchanged, to the paired connection's socket — the head of the
iteration trace, present whatever the decode outcome, and never a write to
the connection's own socket — and only afterwards (and only when the read was
nonempty) are exactly those bytes handed to the decoder, whose outcome,
including failure, cannot alter the already-emitted forward. -/
theorem run_relays_before_decode (self : ConnId) (role : ConnectionType)
    (port : Nat) (data : List Nat) (pending : Option (List Nat)) :
    (runIteration self role port data pending).head? =
      some (RunAct.sendTo (dest_conn self) data) ∧
    dest_conn self ≠ self ∧
    (∀ t d, RunAct.sendTo t d ∈ runIteration self role port data pending →
      t = dest_conn self) ∧
    (∀ dd r, RunAct.decoded dd r ∈ runIteration self role port data pending →
      dd = data ∧ r = parse data port role ∧ data ≠ []) := by
  refine ⟨rfl, by cases self <;> decide, ?_, ?_⟩
  · intro t d hmem
    by_cases hd : data = [] <;> cases role <;> cases pending <;>
      simp [runIteration, hd] at hmem <;> tauto
  · intro dd r hmem
    by_cases hd : data = [] <;> cases role <;> cases pending <;>
      simp [runIteration, hd] at hmem <;> tauto

/-- Witness for C8: in a concrete client-side iteration receiving the two
bytes 0xaa 0xaa, the only write target is the partner connection. -/
theorem run_relays_before_decode_witness :
    ConnId.b = dest_conn ConnId.a :=
  (run_relays_before_decode ConnId.a ConnectionType.CLIENT 3000 [170, 170]
    none).2.2.1 ConnId.b [170, 170] (by decide)

/-- Helper: the backoff interval at retry count zero is exactly 2. -/
theorem retry_interval_zero : retry_interval 0 = 2 := by
  simp [retry_interval]
  norm_num [Real.exp_zero]

/-- Helper: the backoff interval is monotone in the retry counter. -/
theorem retry_interval_mono : Monotone retry_interval := by
  intro a b hab
  unfold retry_interval
  have hE : Real.exp (-(b : ℝ) / 10) ≤ Real.exp (-(a : ℝ) / 10) := by
    apply Real.exp_le_exp.mpr
    have h1 : (a : ℝ) ≤ (b : ℝ) := Nat.cast_le.mpr hab
    linarith
  have hpa := Real.exp_pos (-(a : ℝ) / 10)
  have hpb := Real.exp_pos (-(b : ℝ) / 10)
  have h1 : 1 / (1 + Real.exp (-(a : ℝ) / 10)) ≤
      1 / (1 + Real.exp (-(b : ℝ) / 10)) :=
    one_div_le_one_div_of_le (by linarith) (by linarith)
  linarith

/-- Helper: the backoff interval stays strictly below 12. -/
theorem retry_interval_lt_twelve (r : Nat) : retry_interval r < 12 := by
  unfold retry_interval
  have hE := Real.exp_pos (-(r : ℝ) / 10)
  have h1 : 1 / (1 + Real.exp (-(r : ℝ) / 10)) < 1 := by
    rw [div_lt_one (by linarith)]
    linarith
  linarith

/-- Helper: from the first retry on, the backoff interval exceeds 2. -/
theorem retry_interval_gt_two (r : Nat) (hr : 1 ≤ r) :
    2 < retry_interval r := by
  unfold retry_interval
  have hcast : (1 : ℝ) ≤ (r : ℝ) := by exact_mod_cast hr
  have hE1 : Real.exp (-(r : ℝ) / 10) < 1 := by
    rw [Real.exp_lt_one_iff]
    linarith
  have hE0 := Real.exp_pos (-(r : ℝ) / 10)
  have h1 : (1 : ℝ) / 2 < 1 / (1 + Real.exp (-(r : ℝ) / 10)) :=
    one_div_lt_one_div_of_lt (by linarith) (by linarith)
  linarith

/-- Helper: the backoff interval approaches the 12-unit ceiling. -/
theorem retry_interval_tendsto :
    Filter.Tendsto retry_interval Filter.atTop (nhds 12) := by
  have h0 : Filter.Tendsto (fun r : Nat => (r : ℝ)) Filter.atTop
      Filter.atTop := tendsto_natCast_atTop_atTop
  have hdiv : Filter.Tendsto (fun r : Nat => (r : ℝ) / 10) Filter.atTop
      Filter.atTop := h0.atTop_div_const (by norm_num)
  have hneg : Filter.Tendsto (fun r : Nat => -((r : ℝ) / 10)) Filter.atTop
      Filter.atBot := Filter.tendsto_neg_atBot_iff.mpr hdiv
  have hexp : Filter.Tendsto (fun r : Nat => Real.exp (-((r : ℝ) / 10)))
      Filter.atTop (nhds 0) := by
    have hc := Real.tendsto_exp_atBot.comp hneg
    simpa [Function.comp_def] using hc
  have hden : Filter.Tendsto (fun r : Nat => 1 + Real.exp (-((r : ℝ) / 10)))
      Filter.atTop (nhds 1) := by
    simpa using (tendsto_const_nhds (α := ℕ) (f := Filter.atTop)).add hexp
  have hinv : Filter.Tendsto
      (fun r : Nat => 1 / (1 + Real.exp (-((r : ℝ) / 10))))
      Filter.atTop (nhds 1) := by
    simpa [one_div] using hden.inv₀ (by norm_num)
  have hsub : Filter.Tendsto
      (fun r : Nat => 1 / (1 + Real.exp (-((r : ℝ) / 10))) - 0.4)
      Filter.atTop (nhds (1 - 0.4)) :=
    hinv.sub tendsto_const_nhds
  have hfin : Filter.Tendsto
      (fun r : Nat => 20 * (1 / (1 + Real.exp (-((r : ℝ) / 10))) - 0.4))
      Filter.atTop (nhds (20 * (1 - 0.4))) := hsub.const_mul (20 : ℝ)
  have hfe : retry_interval =
      fun r : Nat => 20 * (1 / (1 + Real.exp (-((r : ℝ) / 10))) - 0.4) := by
    funext r
    simp [retry_interval, neg_div]
  rw [hfe]
  have h12 : (12 : ℝ) = 20 * (1 - 0.4) := by norm_num
  rw [h12]
  exact hfin

/-- Claim C5 (amended): the backoff interval 20 * (sigmoid(retries / 10) -
0.4) is monotonically non-decreasing in the retry counter, equals exactly 2
at retry count 0, lies strictly within the open interval (2, 12) for every
retry count ≥ 1, and for every retry count stays strictly below 12 while
approaching it in the limit. -/
theorem retry_interval_props :
    Monotone retry_interval ∧
    retry_interval 0 = 2 ∧
    (∀ r : Nat, retry_interval r < 12) ∧
    (∀ r : Nat, 1 ≤ r → 2 < retry_interval r) ∧
    Filter.Tendsto retry_interval Filter.atTop (nhds 12) :=
  ⟨retry_interval_mono, retry_interval_zero, retry_interval_lt_twelve,
    retry_interval_gt_two, retry_interval_tendsto⟩

/-- Witness for C5: at the concrete retry count 1 the interval exceeds 2. -/
theorem retry_interval_props_witness : 2 < retry_interval 1 :=
  retry_interval_props.2.2.2.1 1 (by decide)

/-- Counterexample for C5 as stated: at retry count 0 the backoff interval
equals exactly 2, so it does not lie strictly within the open interval
(2, 12). -/
theorem retry_interval_zero_boundary : ¬ (2 < retry_interval 0) := by
  rw [retry_interval_zero]
  exact lt_irrefl 2

end Pwn3
